import Mathlib

/-!
Verification development for the swyftx exchange adapter
(src/python/ccxt/async_support/swyftx.py).

The Python module is shallowly embedded below: pure request-building and
classification logic becomes Lean functions; external ccxt base-class
helpers (precision formatters, currency-code canonicalization) that are
out of scope of this repository are abstracted as function parameters;
raising a typed exception becomes returning `Except.error` of the
corresponding error kind.
-/

/-- Error taxonomy of the adapter: the typed ccxt exception classes the
module imports and raises (swyftx.py line 5). -/
inductive ErrKind where
  | authenticationError
  | insufficientFunds
  | invalidOrder
  | orderNotFound
  | badRequest
  | rateLimitExceeded
  | notSupported
  | exchangeError
deriving DecidableEq, Repr

/-- Substring test on character lists: Python `needle in hay`. -/
def isSubstrCharList (needle : List Char) : List Char → Bool
  | [] => needle.isEmpty
  | c :: rest => needle.isPrefixOf (c :: rest) || isSubstrCharList needle rest

/-- Substring test on strings: Python `needle in hay`. -/
def containsSub (needle hay : String) : Bool :=
  isSubstrCharList needle.toList hay.toList

/-- The `exceptions.exact` table of swyftx.py lines 73-86: message matched
by string equality, in insertion order. -/
def exactExceptions : List (String × ErrKind) :=
  [("Invalid API Key", ErrKind.authenticationError),
   ("Invalid signature", ErrKind.authenticationError),
   ("Invalid nonce", ErrKind.authenticationError),
   ("Invalid authentication credentials", ErrKind.authenticationError),
   ("Insufficient funds", ErrKind.insufficientFunds),
   ("Insufficient balance", ErrKind.insufficientFunds),
   ("Invalid order", ErrKind.invalidOrder),
   ("Order not found", ErrKind.orderNotFound),
   ("Market not found", ErrKind.badRequest),
   ("Asset not found", ErrKind.badRequest),
   ("Rate limit exceeded", ErrKind.rateLimitExceeded),
   ("Trading is disabled", ErrKind.notSupported)]

/-- The `exceptions.broad` table of swyftx.py lines 87-98: first key that
is a substring of the message wins, in insertion order. -/
def broadExceptions : List (String × ErrKind) :=
  [("API key", ErrKind.authenticationError),
   ("signature", ErrKind.authenticationError),
   ("authentication", ErrKind.authenticationError),
   ("Unauthorized", ErrKind.authenticationError),
   ("funds", ErrKind.insufficientFunds),
   ("balance", ErrKind.insufficientFunds),
   ("Invalid", ErrKind.invalidOrder),
   ("Not found", ErrKind.orderNotFound),
   ("Rate limit", ErrKind.rateLimitExceeded),
   ("disabled", ErrKind.notSupported)]

/-- Relevant fields of a parsed response body as read by `handle_errors`
(lines 528-530); `none` models an absent key. -/
structure ErrResponse where
  error : Option String
  message : Option String
  code : Option String
deriving DecidableEq, Repr

/-- Python line 529, `safe_string(response, 'message', error)`: the message
field if present, else the error field. -/
def effectiveMessage (r : ErrResponse) : Option String :=
  match r.message with
  | some m => some m
  | none => r.error

/-- Python truthiness of an optional string: present and nonempty. -/
def truthy : Option String → Bool
  | some s => s != ""
  | none => false

/-- Condition of line 531, `if error or message or code` (with `message`
already defaulted to `error`). -/
def errFieldsTruthy (r : ErrResponse) : Bool :=
  truthy r.error || truthy (effectiveMessage r) || truthy r.code

/-- ccxt `throw_exactly_matched_exception`: equality lookup of the message
in the exact table; skipped when the message is absent. -/
def exactMatched (msg : Option String) : Option ErrKind :=
  match msg with
  | some m => exactExceptions.lookup m
  | none => none

/-- ccxt `throw_broadly_matched_exception`: first table key that is a
substring of the message; skipped when the message is absent. -/
def broadMatched (msg : Option String) : Option ErrKind :=
  match msg with
  | some m => (broadExceptions.find? fun p => containsSub p.1 m).map Prod.snd
  | none => none

/-- The error classifier `handle_errors` (swyftx.py lines 525-541).
`none` for the response models a falsy (absent or empty) parsed body;
the result is the raised error kind, `none` meaning silent pass-through. -/
def handleErrors (statusCode : Nat) (response : Option ErrResponse) : Option ErrKind :=
  match response with
  | none => none
  | some r =>
    if errFieldsTruthy r then
      if statusCode = 401 || statusCode = 403 then some ErrKind.authenticationError
      else if statusCode = 429 then some ErrKind.rateLimitExceeded
      else if statusCode = 400 then some ErrKind.badRequest
      else
        match exactMatched (effectiveMessage r) with
        | some k => some k
        | none =>
          match broadMatched (effectiveMessage r) with
          | some k => some k
          | none => some ErrKind.exchangeError
    else none

example : handleErrors 401 (some ⟨none, some "Insufficient funds", none⟩)
    = some ErrKind.authenticationError := by decide

example : handleErrors 200 (some ⟨none, some "Insufficient funds", none⟩)
    = some ErrKind.insufficientFunds := by decide

example : handleErrors 200 (some ⟨none, some "mysterious failure", none⟩)
    = some ErrKind.exchangeError := by decide

example : handleErrors 200 (some ⟨none, none, none⟩) = none := by decide

/-- Market record as used by `create_order` and `edit_order`: the fields
`market['base']` and `market['quote']` (unified currency codes). -/
structure Mkt where
  base : String
  quote : String
deriving DecidableEq, Repr

/-- Abstractions of the ccxt base-class numeric formatters that swyftx.py
calls but does not define (external collaborators per the spec):
`amount_to_precision`, `price_to_precision`, `cost_to_precision` and
`number_to_string`, each producing the wire string for a number. -/
structure Converters where
  amountToPrecision : ℚ → String
  priceToPrecision : ℚ → String
  costToPrecision : ℚ → String
  numberToString : ℚ → String

/-- Exchange-shaped order payload built by `create_order`
(swyftx.py lines 282-290); `trigger = none` means the key is absent. -/
structure OrderPayload where
  primary : String
  secondary : String
  quantity : String
  assetQuantity : String
  orderType : String
  trigger : Option String
deriving DecidableEq, Repr

/-- Request-building core of `create_order` (swyftx.py lines 259-290):
order-type selection, default base denomination, the limit-order override
when a price is supplied, and the `if trigger:` key inclusion guard.
Raising `InvalidOrder` becomes `Except.error ErrKind.invalidOrder`. -/
def createOrderRequest (cv : Converters) (market : Mkt) (type side : String)
    (amount : ℚ) (price : Option ℚ) : Except ErrKind OrderPayload :=
  let orderTypeOpt : Option String :=
    if type = "market" then some (if side = "buy" then "3" else "4")
    else if type = "limit" then some (if side = "buy" then "1" else "2")
    else none
  match orderTypeOpt with
  | none => Except.error ErrKind.invalidOrder
  | some orderType =>
    let primary := market.base
    let secondary := market.quote
    let quantity := cv.amountToPrecision amount
    let assetQuantity := market.base
    let trigger : Option String := none
    let fields : String × String × String × String × Option String :=
      match price with
      | some p =>
        if type = "limit" then
          if side = "buy" then
            (market.quote, market.base, cv.costToPrecision (amount * p),
             market.quote, some (cv.priceToPrecision p))
          else
            (market.base, market.quote, cv.amountToPrecision amount,
             market.base, some (cv.numberToString (1 / p)))
        else (primary, secondary, quantity, assetQuantity, trigger)
      | none => (primary, secondary, quantity, assetQuantity, trigger)
    Except.ok
      { primary := fields.1
        secondary := fields.2.1
        quantity := fields.2.2.1
        assetQuantity := fields.2.2.2.1
        orderType := orderType
        trigger :=
          match fields.2.2.2.2 with
          | some t => if t = "" then none else some t
          | none => none }

/-- Exchange-shaped payload built by `edit_order` (swyftx.py lines
359-364); optional fields model keys only set when the corresponding
unified argument was supplied. -/
structure EditPayload where
  orderUuid : String
  trigger : Option String
  quantity : Option String
  assetQuantity : Option String
deriving DecidableEq, Repr

/-- Request-building core of `edit_order` (swyftx.py lines 352-366):
only limit orders are editable, at least one of price/amount must be
given, price maps to `trigger`, amount maps to `quantity` and forces
`assetQuantity = market.base`. Both checks precede any signing or
network call in the source. -/
def editOrderRequest (cv : Converters) (mkt : Mkt) (uuid type : String)
    (amount price : Option ℚ) : Except ErrKind EditPayload :=
  if type ≠ "limit" then Except.error ErrKind.notSupported
  else if price.isNone && amount.isNone then Except.error ErrKind.invalidOrder
  else Except.ok
    { orderUuid := uuid
      trigger := price.map cv.priceToPrecision
      quantity := amount.map cv.amountToPrecision
      assetQuantity := if amount.isSome then some mkt.base else none }

/-- Concrete converter instance used by witnesses: each formatter returns
a fixed nonempty tag so payload provenance is visible. -/
def cv1 : Converters :=
  { amountToPrecision := fun _ => "amt"
    priceToPrecision := fun _ => "prc"
    costToPrecision := fun _ => "cst"
    numberToString := fun _ => "num" }

/-- Concrete market used by witnesses. -/
def mktW : Mkt := { base := "BTC", quote := "AUD" }

example : createOrderRequest cv1 mktW "market" "buy" 1 none =
    Except.ok ⟨"BTC", "AUD", "amt", "BTC", "3", none⟩ := rfl

example : createOrderRequest cv1 mktW "limit" "buy" (1/100) (some 50000) =
    Except.ok ⟨"AUD", "BTC", "cst", "AUD", "1", some "prc"⟩ := rfl

example : createOrderRequest cv1 mktW "limit" "sell" (1/100) (some 50000) =
    Except.ok ⟨"BTC", "AUD", "amt", "BTC", "2", some "num"⟩ := rfl

example : createOrderRequest cv1 mktW "limit" "buy" 1 none =
    Except.ok ⟨"BTC", "AUD", "amt", "BTC", "1", none⟩ := rfl

example : editOrderRequest cv1 mktW "u" "market" none (some 1) =
    Except.error ErrKind.notSupported := rfl

example : editOrderRequest cv1 mktW "u" "limit" none none =
    Except.error ErrKind.invalidOrder := rfl

/-- C1: the error classifier raises exactly one typed error in strict
priority order. A falsy body, or a body without error/message/code,
passes through silently; otherwise HTTP 401/403 yields
AuthenticationError (regardless of the message, including one such as
"Insufficient funds" that the exact table would map to
InsufficientFunds), 429 yields RateLimitExceeded, 400 yields BadRequest;
only then is the message tried against the exact table, then the broad
table, and otherwise a generic ExchangeError is raised, never silence. -/
theorem handle_errors_classification :
    (∀ s, handleErrors s none = none)
    ∧ (∀ s r, errFieldsTruthy r = false → handleErrors s (some r) = none)
    ∧ (∀ s r, errFieldsTruthy r = true → s = 401 ∨ s = 403 →
        handleErrors s (some r) = some ErrKind.authenticationError)
    ∧ (∀ r, errFieldsTruthy r = true →
        handleErrors 429 (some r) = some ErrKind.rateLimitExceeded)
    ∧ (∀ r, errFieldsTruthy r = true →
        handleErrors 400 (some r) = some ErrKind.badRequest)
    ∧ (∀ s r k, errFieldsTruthy r = true → s ≠ 400 → s ≠ 401 → s ≠ 403 → s ≠ 429 →
        exactMatched (effectiveMessage r) = some k →
        handleErrors s (some r) = some k)
    ∧ (∀ s r k, errFieldsTruthy r = true → s ≠ 400 → s ≠ 401 → s ≠ 403 → s ≠ 429 →
        exactMatched (effectiveMessage r) = none →
        broadMatched (effectiveMessage r) = some k →
        handleErrors s (some r) = some k)
    ∧ (∀ s r, errFieldsTruthy r = true → s ≠ 400 → s ≠ 401 → s ≠ 403 → s ≠ 429 →
        exactMatched (effectiveMessage r) = none →
        broadMatched (effectiveMessage r) = none →
        handleErrors s (some r) = some ErrKind.exchangeError)
    ∧ (handleErrors 401 (some ⟨none, some "Insufficient funds", none⟩)
          = some ErrKind.authenticationError
        ∧ exactMatched (some "Insufficient funds") = some ErrKind.insufficientFunds)
    ∧ (∀ s r, errFieldsTruthy r = true → (handleErrors s (some r)).isSome = true) := by
  refine ⟨?_, ?_, ?_, ?_, ?_, ?_, ?_, ?_, ⟨by decide, by decide⟩, ?_⟩
  · intro s; rfl
  · intro s r h; simp [handleErrors, h]
  · intro s r h hs; rcases hs with rfl | rfl <;> simp [handleErrors, h]
  · intro r h; simp [handleErrors, h]
  · intro r h; simp [handleErrors, h]
  · intro s r k h h400 h401 h403 h429 hex
    simp [handleErrors, h, h400, h401, h403, h429, hex]
  · intro s r k h h400 h401 h403 h429 hex hbr
    simp [handleErrors, h, h400, h401, h403, h429, hex, hbr]
  · intro s r h h400 h401 h403 h429 hex hbr
    simp [handleErrors, h, h400, h401, h403, h429, hex, hbr]
  · intro s r h
    simp only [handleErrors, h, if_true]
    split
    · rfl
    · split
      · rfl
      · split
        · rfl
        · split
          · rfl
          · split <;> rfl

/-- Witness for C1: a 403 response whose error field is "Insufficient
funds" is classified as AuthenticationError, and an unrecognized message
under a 200 status is classified as the generic ExchangeError. -/
theorem handle_errors_classification_witness :
    (errFieldsTruthy ⟨some "Insufficient funds", none, none⟩ = true
      ∧ handleErrors 403 (some ⟨some "Insufficient funds", none, none⟩)
          = some ErrKind.authenticationError)
    ∧ (errFieldsTruthy ⟨none, some "mysterious failure", none⟩ = true
      ∧ handleErrors 200 (some ⟨none, some "mysterious failure", none⟩)
          = some ErrKind.exchangeError) :=
  ⟨⟨by decide,
    handle_errors_classification.2.2.1 403 ⟨some "Insufficient funds", none, none⟩
      (by decide) (Or.inr rfl)⟩,
   ⟨by decide,
    handle_errors_classification.2.2.2.2.2.2.2.1 200 ⟨none, some "mysterious failure", none⟩
      (by decide) (by decide) (by decide) (by decide) (by decide) (by decide) (by decide)⟩⟩

/-- C2: a limit buy with a supplied price swaps the denomination: the
payload has primary = quote, secondary = base, assetQuantity = quote,
trigger = the price formatted to price precision, and quantity = amount
times price formatted to cost precision (swyftx.py lines 271-277). -/
theorem create_order_limit_buy_payload (cv : Converters) (mkt : Mkt)
    (amount p : ℚ) (h : cv.priceToPrecision p ≠ "") :
    createOrderRequest cv mkt "limit" "buy" amount (some p) =
      Except.ok { primary := mkt.quote, secondary := mkt.base,
                  quantity := cv.costToPrecision (amount * p),
                  assetQuantity := mkt.quote, orderType := "1",
                  trigger := some (cv.priceToPrecision p) } := by
  simp [createOrderRequest, h]

/-- Witness for C2 at amount 0.01 and price 50000. -/
theorem create_order_limit_buy_witness :
    cv1.priceToPrecision 50000 ≠ ""
    ∧ createOrderRequest cv1 mktW "limit" "buy" (1/100) (some 50000) =
        Except.ok { primary := mktW.quote, secondary := mktW.base,
                    quantity := cv1.costToPrecision (1/100 * 50000),
                    assetQuantity := mktW.quote, orderType := "1",
                    trigger := some (cv1.priceToPrecision 50000) } :=
  ⟨by decide, create_order_limit_buy_payload cv1 mktW (1/100) 50000 (by decide)⟩

/-- C3: a limit sell with a supplied price keeps the base denomination:
primary = base, secondary = quote, assetQuantity = base, quantity =
amount formatted to amount precision, and trigger = the plain
numeric-string form of 1 / price, with no precision rounding
(swyftx.py lines 278-281). -/
theorem create_order_limit_sell_payload (cv : Converters) (mkt : Mkt)
    (amount p : ℚ) (h : cv.numberToString (1 / p) ≠ "") :
    createOrderRequest cv mkt "limit" "sell" amount (some p) =
      Except.ok { primary := mkt.base, secondary := mkt.quote,
                  quantity := cv.amountToPrecision amount,
                  assetQuantity := mkt.base, orderType := "2",
                  trigger := some (cv.numberToString (1 / p)) } := by
  simp only [one_div] at h
  simp [createOrderRequest, h]

/-- Witness for C3 at price 50000: the trigger is the numeric string of
1/50000. -/
theorem create_order_limit_sell_witness :
    cv1.numberToString (1 / 50000) ≠ ""
    ∧ createOrderRequest cv1 mktW "limit" "sell" (1/100) (some 50000) =
        Except.ok { primary := mktW.base, secondary := mktW.quote,
                    quantity := cv1.amountToPrecision (1/100),
                    assetQuantity := mktW.base, orderType := "2",
                    trigger := some (cv1.numberToString (1 / 50000)) } :=
  ⟨by decide, create_order_limit_sell_payload cv1 mktW (1/100) 50000 (by decide)⟩

/-- C4: the exchange orderType field is a pure function of (type, side):
(market, buy) to "3", (market, sell) to "4", (limit, buy) to "1",
(limit, sell) to "2"; any other type yields InvalidOrder before the
request is built (swyftx.py lines 259-265). -/
theorem create_order_type_code (cv : Converters) (mkt : Mkt) (amount : ℚ)
    (price : Option ℚ) :
    Except.map OrderPayload.orderType
        (createOrderRequest cv mkt "market" "buy" amount price) = Except.ok "3"
    ∧ Except.map OrderPayload.orderType
        (createOrderRequest cv mkt "market" "sell" amount price) = Except.ok "4"
    ∧ Except.map OrderPayload.orderType
        (createOrderRequest cv mkt "limit" "buy" amount price) = Except.ok "1"
    ∧ Except.map OrderPayload.orderType
        (createOrderRequest cv mkt "limit" "sell" amount price) = Except.ok "2"
    ∧ ∀ type side : String, type ≠ "market" → type ≠ "limit" →
        createOrderRequest cv mkt type side amount price
          = Except.error ErrKind.invalidOrder := by
  refine ⟨?_, ?_, ?_, ?_, ?_⟩
  · cases price <;> simp [createOrderRequest, Except.map]
  · cases price <;> simp [createOrderRequest, Except.map]
  · cases price <;> simp [createOrderRequest, Except.map]
  · cases price <;> simp [createOrderRequest, Except.map]
  · intro type side h1 h2; simp [createOrderRequest, h1, h2]

/-- Witness for C4: an unsupported order type is rejected with
InvalidOrder. -/
theorem create_order_type_code_witness :
    createOrderRequest cv1 mktW "stop" "buy" 1 none
      = Except.error ErrKind.invalidOrder :=
  (create_order_type_code cv1 mktW 1 none).2.2.2.2 "stop" "buy"
    (by decide) (by decide)

/-- Counterexample for C5: a limit buy with no supplied price does not
fail with InvalidOrder; create_order builds (and would send) the default
base-denominated payload with no trigger (swyftx.py lines 266-295: the
limit override is merely skipped when price is None). -/
theorem create_order_limit_no_price_counterexample :
    createOrderRequest cv1 mktW "limit" "buy" 1 none =
      Except.ok { primary := "BTC", secondary := "AUD", quantity := "amt",
                  assetQuantity := "BTC", orderType := "1", trigger := none }
    ∧ createOrderRequest cv1 mktW "limit" "buy" 1 none ≠
        Except.error ErrKind.invalidOrder :=
  ⟨rfl, fun h => nomatch h⟩

/-- C5 amended: a limit order without a supplied price is not rejected;
the request is built with the default denomination (primary = base,
secondary = quote, quantity = amount at amount precision,
assetQuantity = base, orderType "1" for buy and "2" for sell) and no
trigger field, and is then submitted. -/
theorem create_order_limit_no_price_builds_default (cv : Converters)
    (mkt : Mkt) (side : String) (amount : ℚ) :
    createOrderRequest cv mkt "limit" side amount none =
      Except.ok { primary := mkt.base, secondary := mkt.quote,
                  quantity := cv.amountToPrecision amount,
                  assetQuantity := mkt.base,
                  orderType := if side = "buy" then "1" else "2",
                  trigger := none } := by
  by_cases h : side = "buy" <;> simp [createOrderRequest, h]

/-- C6: edit_order rejects any type other than limit with NotSupported,
and rejects a call with neither price nor amount with InvalidOrder; both
checks happen before the request is signed or sent (swyftx.py lines
352-366). -/
theorem edit_order_preconditions (cv : Converters) (mkt : Mkt) (uuid : String) :
    (∀ (type : String) (amount price : Option ℚ), type ≠ "limit" →
        editOrderRequest cv mkt uuid type amount price
          = Except.error ErrKind.notSupported)
    ∧ editOrderRequest cv mkt uuid "limit" none none
        = Except.error ErrKind.invalidOrder := by
  constructor
  · intro type amount price h; simp [editOrderRequest, h]
  · rfl

/-- Witness for C6: editing a market order is NotSupported, and a limit
edit with neither price nor amount is an InvalidOrder. -/
theorem edit_order_preconditions_witness :
    editOrderRequest cv1 mktW "ord-1" "market" none (some 1)
        = Except.error ErrKind.notSupported
    ∧ editOrderRequest cv1 mktW "ord-1" "limit" none none
        = Except.error ErrKind.invalidOrder :=
  ⟨(edit_order_preconditions cv1 mktW "ord-1").1 "market" none (some 1) (by decide),
   (edit_order_preconditions cv1 mktW "ord-1").2⟩

/-- Asset dict entry as read by fetch_markets and load_asset_mapping:
id, code, price_scale, minimum_order, minimum_order_increment,
deposit_enabled and withdraw_enabled; `none` models an absent key
(the safe_* helpers then substitute their defaults). -/
structure Asset where
  id : String
  code : String
  priceScale : Option Int
  minimumOrder : Option ℚ
  minimumOrderIncrement : Option ℚ
  depositEnabled : Option Bool
  withdrawEnabled : Option Bool
deriving DecidableEq, Repr

/-- Python dict built by `index_by(assets, 'id')` (and the by-id map of
load_asset_mapping, lines 211-216): association list where a later entry
shadows an earlier one with the same key, modelled by reversing so that
`List.lookup` finds the last write. -/
def assetsById (assets : List Asset) : List (String × Asset) :=
  (assets.map fun a => (a.id, a)).reverse

/-- The by-code map of load_asset_mapping (swyftx.py lines 210-217),
keyed on the raw code string, later entries shadowing earlier ones. -/
def assetsByCode (assets : List Asset) : List (String × Asset) :=
  (assets.map fun a => (a.code, a)).reverse

/-- Number of entries of a Python dict modelled as an association list:
the number of distinct keys. -/
def dictSize (d : List (String × Asset)) : Nat :=
  (d.map Prod.fst).dedup.length

/-- Live-rate entry fields consulted by fetch_markets (lines 130-131). -/
structure RateInfo where
  buyLiquidityFlag : Option Bool
  sellLiquidityFlag : Option Bool
deriving DecidableEq, Repr

/-- Unified market row as synthesized by fetch_markets (lines 135-168),
restricted to the non-constant fields the source computes. -/
structure MarketRow where
  id : String
  symbol : String
  base : String
  quote : String
  baseId : String
  quoteId : String
  active : Bool
  amountPrecision : ℚ
  pricePrecision : ℚ
  amountMin : Option ℚ
deriving DecidableEq, Repr

/-- The fixed AUD quote asset id (swyftx.py line 108). -/
def audId : String := "1"

/-- Per-entry body of the fetch_markets loop (swyftx.py lines 117-168):
skip the quote asset itself, skip base ids without an asset entry, and
otherwise synthesize the market row against the fixed quote. -/
def synthMarket (scc : String → String) (quoteCode : String)
    (pricePrecision : ℚ) (byId : List (String × Asset))
    (kv : String × RateInfo) : Option MarketRow :=
  if kv.1 = audId then none
  else
    match byId.lookup kv.1 with
    | none => none
    | some baseAsset =>
      let base := scc baseAsset.code
      let basePriceScale : Int := baseAsset.priceScale.getD 8
      let amountPrecision : ℚ :=
        match baseAsset.minimumOrderIncrement with
        | some q => if q = 0 then (10 : ℚ) ^ (-basePriceScale) else q
        | none => (10 : ℚ) ^ (-basePriceScale)
      let active := !(kv.2.buyLiquidityFlag.getD false)
        && !(kv.2.sellLiquidityFlag.getD false)
        && (baseAsset.depositEnabled.getD true)
        && (baseAsset.withdrawEnabled.getD true)
      some { id := kv.1 ++ "/" ++ audId
             symbol := base ++ "/" ++ quoteCode
             base := base
             quote := quoteCode
             baseId := kv.1
             quoteId := audId
             active := active
             amountPrecision := amountPrecision
             pricePrecision := pricePrecision
             amountMin := baseAsset.minimumOrder }

/-- fetch_markets (swyftx.py lines 103-169), abstracted over the fetched
asset list, the live-rate snapshot for the AUD quote id, and the external
safe_currency_code canonicalizer `scc`. A missing AUD asset raises
ExchangeError (line 111); otherwise every live-rate key other than the
quote id that has an asset entry becomes one market row. -/
def fetchMarkets (scc : String → String) (assets : List Asset)
    (liveRates : List (String × RateInfo)) : Except ErrKind (List MarketRow) :=
  let byId := assetsById assets
  match byId.lookup audId with
  | none => Except.error ErrKind.exchangeError
  | some audAsset =>
    let quoteCode := scc audAsset.code
    let pricePrecision : ℚ := (10 : ℚ) ^ (-(audAsset.priceScale.getD 6))
    Except.ok (liveRates.filterMap (synthMarket scc quoteCode pricePrecision byId))

/-- Lookup in an association list succeeds exactly when some pair carries
the key. -/
theorem lookup_isSome_iff {α : Type} (l : List (String × α)) (k : String) :
    (l.lookup k).isSome = true ↔ ∃ p ∈ l, p.1 = k := by
  induction l with
  | nil => simp [List.lookup]
  | cons hd tl ih =>
    obtain ⟨a, b⟩ := hd
    by_cases h : k = a
    · subst h
      simp [List.lookup]
    · have hb : (k == a) = false := by simp [h]
      simp [List.lookup, hb, ih, h, Ne.symm h]

/-- Lookup distributes over append, preferring the left list. -/
theorem lookup_append_match {α : Type} (k : String) (l₁ l₂ : List (String × α)) :
    (l₁ ++ l₂).lookup k =
      match l₁.lookup k with
      | some v => some v
      | none => l₂.lookup k := by
  induction l₁ with
  | nil => simp [List.lookup]
  | cons hd tl ih =>
    obtain ⟨a, b⟩ := hd
    by_cases h : k = a
    · subst h; simp [List.lookup]
    · have hb : (k == a) = false := by simp [h]
      simp [List.lookup, hb, ih]

/-- Lookup misses when the key is not among the stored keys. -/
theorem lookup_eq_none_of_not_mem {α : Type} (k : String)
    (l : List (String × α)) (h : k ∉ l.map Prod.fst) : l.lookup k = none := by
  induction l with
  | nil => rfl
  | cons hd tl ih =>
    obtain ⟨a, b⟩ := hd
    simp only [List.map_cons, List.mem_cons] at h
    push_neg at h
    have hb : (k == a) = false := by simp [h.1]
    simp [List.lookup, hb, ih h.2]

/-- A by-id lookup succeeds exactly for ids of fetched assets. -/
theorem assetsById_lookup_isSome (assets : List Asset) (k : String) :
    ((assetsById assets).lookup k).isSome = true ↔ ∃ a ∈ assets, a.id = k := by
  rw [lookup_isSome_iff]
  constructor
  · rintro ⟨p, hp, hk⟩
    rw [assetsById, List.mem_reverse, List.mem_map] at hp
    obtain ⟨a, ha, rfl⟩ := hp
    exact ⟨a, ha, hk⟩
  · rintro ⟨a, ha, hk⟩
    exact ⟨(a.id, a), by rw [assetsById, List.mem_reverse, List.mem_map]; exact ⟨a, ha, rfl⟩, hk⟩

/-- A loop entry produces a market exactly when its key is not the quote
id and has an asset entry. -/
theorem synthMarket_isSome (scc : String → String) (quoteCode : String)
    (pricePrecision : ℚ) (byId : List (String × Asset)) (kv : String × RateInfo) :
    (synthMarket scc quoteCode pricePrecision byId kv).isSome = true ↔
      kv.1 ≠ audId ∧ (byId.lookup kv.1).isSome = true := by
  unfold synthMarket
  by_cases h : kv.1 = audId
  · simp [h]
  · cases hl : byId.lookup kv.1 <;> simp [h, hl]

/-- Every market a loop entry produces carries that entry's key as its
base id and the fixed quote. -/
theorem synthMarket_fields (scc : String → String) (quoteCode : String)
    (pricePrecision : ℚ) (byId : List (String × Asset)) (kv : String × RateInfo)
    (m : MarketRow) (h : synthMarket scc quoteCode pricePrecision byId kv = some m) :
    m.baseId = kv.1 ∧ m.quote = quoteCode ∧ m.quoteId = audId := by
  unfold synthMarket at h
  by_cases hq : kv.1 = audId
  · rw [if_pos hq] at h
    cases h
  · rw [if_neg hq] at h
    cases hl : byId.lookup kv.1 with
    | none =>
      rw [hl] at h
      simp at h
    | some baseAsset =>
      rw [hl] at h
      simp only [Option.some.injEq] at h
      subst h
      exact ⟨rfl, rfl, rfl⟩

/-- C8: given that the AUD asset is present (swyftx.py line 109-111),
fetch_markets returns a market for base id B iff B appears as a key of
the live-rate snapshot, B is not the quote id itself, and B has a
matching entry in the fetched asset list; and the quote side of every
returned market is the fixed AUD asset. -/
theorem fetch_markets_synthesis (scc : String → String) (assets : List Asset)
    (liveRates : List (String × RateInfo)) (audAsset : Asset)
    (haud : (assetsById assets).lookup audId = some audAsset) :
    ∃ ms, fetchMarkets scc assets liveRates = Except.ok ms
      ∧ (∀ B, (∃ m ∈ ms, m.baseId = B) ↔
          (B ≠ audId ∧ (∃ r, (B, r) ∈ liveRates) ∧ ∃ a ∈ assets, a.id = B))
      ∧ ∀ m ∈ ms, m.quote = scc audAsset.code ∧ m.quoteId = audId := by
  refine ⟨liveRates.filterMap (synthMarket scc (scc audAsset.code)
      ((10 : ℚ) ^ (-(audAsset.priceScale.getD 6))) (assetsById assets)), ?_, ?_, ?_⟩
  · simp only [fetchMarkets]
    rw [haud]
  · intro B
    constructor
    · rintro ⟨m, hm, rfl⟩
      rw [List.mem_filterMap] at hm
      obtain ⟨kv, hkv, hsynth⟩ := hm
      obtain ⟨hb, _, _⟩ := synthMarket_fields _ _ _ _ _ _ hsynth
      have hs : (synthMarket scc (scc audAsset.code)
          ((10 : ℚ) ^ (-(audAsset.priceScale.getD 6))) (assetsById assets) kv).isSome
            = true := by
        rw [hsynth]; rfl
      rw [synthMarket_isSome] at hs
      obtain ⟨hne, hsome⟩ := hs
      rw [assetsById_lookup_isSome] at hsome
      rw [hb]
      refine ⟨hne, ⟨kv.2, ?_⟩, hsome⟩
      rw [Prod.mk.eta]
      exact hkv
    · rintro ⟨hne, ⟨r, hr⟩, hasset⟩
      have hsome : ((assetsById assets).lookup B).isSome = true :=
        (assetsById_lookup_isSome assets B).mpr hasset
      have hs : (synthMarket scc (scc audAsset.code)
          ((10 : ℚ) ^ (-(audAsset.priceScale.getD 6))) (assetsById assets) (B, r)).isSome
            = true := by
        rw [synthMarket_isSome]
        exact ⟨hne, hsome⟩
      obtain ⟨m, hm⟩ := Option.isSome_iff_exists.mp hs
      refine ⟨m, List.mem_filterMap.mpr ⟨(B, r), hr, hm⟩, ?_⟩
      exact (synthMarket_fields _ _ _ _ _ _ hm).1
  · intro m hm
    rw [List.mem_filterMap] at hm
    obtain ⟨kv, _, hsynth⟩ := hm
    obtain ⟨_, hq, hqid⟩ := synthMarket_fields _ _ _ _ _ _ hsynth
    exact ⟨hq, hqid⟩

/-- Asset-catalog fixture used by witnesses: the AUD quote asset. -/
def audAssetW : Asset :=
  { id := "1", code := "AUD", priceScale := some 2, minimumOrder := none,
    minimumOrderIncrement := none, depositEnabled := some true,
    withdrawEnabled := some true }

/-- Asset-catalog fixture used by witnesses: one tradable base asset. -/
def btcAssetW : Asset :=
  { id := "5", code := "BTC", priceScale := some 8,
    minimumOrder := some (1/1000), minimumOrderIncrement := some (1/100000),
    depositEnabled := some true, withdrawEnabled := some true }

/-- Two-asset catalog fixture. -/
def assetsW : List Asset := [audAssetW, btcAssetW]

/-- Live-rate snapshot fixture with one base asset quoted in AUD. -/
def liveRatesW : List (String × RateInfo) :=
  [("5", { buyLiquidityFlag := some false, sellLiquidityFlag := some false })]

/-- Witness for C8 on a concrete two-asset catalog and one-entry
live-rate snapshot. -/
theorem fetch_markets_synthesis_witness :
    (assetsById assetsW).lookup audId = some audAssetW
    ∧ ∃ ms, fetchMarkets (fun s => s) assetsW liveRatesW = Except.ok ms
      ∧ (∀ B, (∃ m ∈ ms, m.baseId = B) ↔
          (B ≠ audId ∧ (∃ r, (B, r) ∈ liveRatesW) ∧ ∃ a ∈ assetsW, a.id = B))
      ∧ ∀ m ∈ ms, m.quote = (fun s => s) audAssetW.code ∧ m.quoteId = audId :=
  ⟨rfl, fetch_markets_synthesis (fun s => s) assetsW liveRatesW audAssetW rfl⟩

/-- Lookup of a key in the reversed keyed image of a list with nodup keys
finds the unique originating element. -/
theorem lookup_map_reverse_nodup (f : Asset → String) (assets : List Asset)
    (hf : (assets.map f).Nodup) (a : Asset) (ha : a ∈ assets) :
    ((assets.map fun x => (f x, x)).reverse).lookup (f a) = some a := by
  induction assets with
  | nil => cases ha
  | cons hd tl ih =>
    rw [List.map_cons, List.reverse_cons, lookup_append_match]
    rw [List.map_cons, List.nodup_cons] at hf
    rcases List.mem_cons.mp ha with rfl | hmem
    · have hnone : ((tl.map fun x => (f x, x)).reverse).lookup (f a) = none := by
        apply lookup_eq_none_of_not_mem
        intro hk
        apply hf.1
        simp only [List.map_reverse, List.map_map, List.mem_reverse] at hk
        simpa using hk
      rw [hnone]
      simp [List.lookup]
    · rw [ih hf.2 hmem]

/-- Counterexample for C9: with two fetched assets sharing the code "X",
the by-id index has two entries while the by-code index collapses to
one, and the id-then-code round trip returns the other asset
(load_asset_mapping performs no key-uniqueness check, so the later dict
write wins; swyftx.py lines 210-218). -/
theorem load_asset_mapping_counterexample :
    (assetsById [⟨"1", "X", none, none, none, none, none⟩,
                 ⟨"2", "X", none, none, none, none, none⟩]).lookup "1"
        = some ⟨"1", "X", none, none, none, none, none⟩
    ∧ (assetsByCode [⟨"1", "X", none, none, none, none, none⟩,
                     ⟨"2", "X", none, none, none, none, none⟩]).lookup "X"
        = some ⟨"2", "X", none, none, none, none, none⟩
    ∧ (⟨"2", "X", none, none, none, none, none⟩ : Asset)
        ≠ ⟨"1", "X", none, none, none, none, none⟩
    ∧ dictSize (assetsByCode [⟨"1", "X", none, none, none, none, none⟩,
                              ⟨"2", "X", none, none, none, none, none⟩])
        ≠ dictSize (assetsById [⟨"1", "X", none, none, none, none, none⟩,
                                ⟨"2", "X", none, none, none, none, none⟩]) :=
  ⟨rfl, rfl, by decide, by decide⟩

/-- C9 amended: when the fetched assets have pairwise-distinct ids and
pairwise-distinct codes, the byCode and byId indexes built by
load_asset_mapping contain the same number of entries, and looking an
asset up by its id and then looking up that asset's code returns the
same asset. -/
theorem load_asset_mapping_indexes_agree (assets : List Asset)
    (hid : (assets.map Asset.id).Nodup) (hcode : (assets.map Asset.code).Nodup) :
    dictSize (assetsByCode assets) = dictSize (assetsById assets)
    ∧ ∀ a ∈ assets,
        (assetsById assets).lookup a.id = some a
        ∧ (assetsByCode assets).lookup a.code = some a := by
  constructor
  · have h1 : dictSize (assetsByCode assets) = assets.length := by
      unfold dictSize assetsByCode
      rw [List.map_reverse, List.map_map]
      have hmap : assets.map (Prod.fst ∘ fun a => (a.code, a)) = assets.map Asset.code := by
        simp [Function.comp]
      rw [hmap, List.dedup_eq_self.mpr (List.nodup_reverse.mpr hcode)]
      simp
    have h2 : dictSize (assetsById assets) = assets.length := by
      unfold dictSize assetsById
      rw [List.map_reverse, List.map_map]
      have hmap : assets.map (Prod.fst ∘ fun a => (a.id, a)) = assets.map Asset.id := by
        simp [Function.comp]
      rw [hmap, List.dedup_eq_self.mpr (List.nodup_reverse.mpr hid)]
      simp
    rw [h1, h2]
  · intro a ha
    exact ⟨lookup_map_reverse_nodup Asset.id assets hid a ha,
           lookup_map_reverse_nodup Asset.code assets hcode a ha⟩

/-- Witness for the amended C9 on the two-asset catalog fixture. -/
theorem load_asset_mapping_indexes_agree_witness :
    ((assetsW.map Asset.id).Nodup ∧ (assetsW.map Asset.code).Nodup)
    ∧ (dictSize (assetsByCode assetsW) = dictSize (assetsById assetsW)
      ∧ ∀ a ∈ assetsW,
          (assetsById assetsW).lookup a.id = some a
          ∧ (assetsByCode assetsW).lookup a.code = some a) :=
  ⟨⟨by decide, by decide⟩,
   load_asset_mapping_indexes_agree assetsW (by decide) (by decide)⟩

/-- Python runtime failure surfaced by the embedding: `nameError` models
a NameError raised when an undefined global name is evaluated. -/
inductive PyErr where
  | nameError
deriving DecidableEq, Repr

/-- The private API base URL (swyftx.py lines 49-53). -/
def privateBaseUrl : String := "https://api.swyftx.com.au"

/-- The private endpoint templates per lowercased HTTP method
(swyftx.py lines 33-47). -/
def privateEndpoints (method : String) : List String :=
  if method = "get" then
    ["user/balance", "user/statistics/accountValue", "orders",
     "orders/byId/{orderUuid}", "orders/detail/{orderId}",
     "limits/withdrawal", "trade/details/{tradeUuid}", "history"]
  else if method = "post" then ["orders", "orders/market", "withdraw", "transfer"]
  else if method = "delete" then ["orders/{orderId}"]
  else if method = "put" then ["orders/{orderUuid}"]
  else []

/-- Python `lstrip` of leading slashes (swyftx.py line 513). -/
def lstripSlash (s : String) : String :=
  String.mk (s.toList.dropWhile fun c => c = '/')

/-- Truncation at the first question mark, Python lines 514-516. -/
def stripQuery (s : String) : String :=
  String.mk (s.toList.takeWhile fun c => c ≠ '?')

/-- ASCII lowercasing of a character list: Python `str.lower` restricted
to the ASCII method names it is applied to. -/
def lowerChars (l : List Char) : List Char :=
  l.map fun c => if 65 ≤ c.toNat ∧ c.toNat ≤ 90 then Char.ofNat (c.toNat + 32) else c

/-- The request-classification guard `needs_authentication` (swyftx.py
lines 507-523). URLs containing the token-refresh path are exempt, as
are URLs outside the private base. Otherwise the source iterates over
the endpoint templates of the method and evaluates `re.match` on line
521 — but the module never imports `re`, so the first loop iteration
raises NameError; only an unknown method (empty endpoint list) escapes
with False. -/
def needs_authentication (url method : String) : Except PyErr Bool :=
  if containsSub "auth/refresh/" url then Except.ok false
  else if (privateBaseUrl.toList).isPrefixOf url.toList = false then Except.ok false
  else
    let path := lstripSlash (String.mk (url.toList.drop privateBaseUrl.toList.length))
    let _path := stripQuery path
    match privateEndpoints (String.mk (lowerChars method.toList)) with
    | [] => Except.ok false
    | _ :: _ => Except.error PyErr.nameError

set_option maxRecDepth 100000

/-- C7: a private signed request with an empty token slot never performs
a successful authenticate() call. In the source, sign() (line 480)
invokes the coroutine `self.authenticate()` without awaiting it, so the
token is never stored there, and the fetch() override (lines 501-505)
first evaluates needs_authentication, whose loop body references the
unimported name `re` (line 521) and therefore raises NameError before
any authenticate() call can happen. This theorem evaluates the embedded
needs_authentication at the URL that sign() builds for the private
balance endpoint. -/
theorem needs_authentication_user_balance_name_error :
    needs_authentication "https://api.swyftx.com.au/user/balance/" "GET"
      = Except.error PyErr.nameError := rfl

/-- C10: any URL containing the token-refresh path is exempt from
authentication for every HTTP method (swyftx.py lines 508-509, the first
check of needs_authentication), so the fetch performed inside
authenticate() cannot recurse into authentication. -/
theorem needs_authentication_refresh_exempt (url method : String)
    (h : containsSub "auth/refresh/" url = true) :
    needs_authentication url method = Except.ok false := by
  unfold needs_authentication
  rw [if_pos h]

/-- Witness for C10 at the exact URL and method that authenticate()
uses (swyftx.py lines 220-223). -/
theorem needs_authentication_refresh_exempt_witness :
    containsSub "auth/refresh/" "https://api.swyftx.com.au/auth/refresh/" = true
    ∧ needs_authentication "https://api.swyftx.com.au/auth/refresh/" "POST"
        = Except.ok false :=
  ⟨by decide,
   needs_authentication_refresh_exempt "https://api.swyftx.com.au/auth/refresh/"
     "POST" (by decide)⟩
